import Mathlib

/-!
Verification development for a small Python persistence service consisting of
two modules:

* `Database.py` (modelled in namespace `DatabaseApp`): a Flask app backed by a
  sqlite table `subject_slots` (one row per occupied slot) and a singleton
  `goals` table.
* `database.py` (modelled in namespace `DatabaseLib`): a key-value library
  backed by a sqlite table `subject_entries`, persisting the slot snapshot as
  a JSON blob under the reserved key "subjects", with a process-wide in-memory
  mirror.

The embedding is shallow: Python JSON values become the inductive `Json`,
sqlite tables become association lists, exceptions become `Except PyErr`, and
the sqlite connection scoping of each module becomes an explicit event trace.
JSON (de)serialisation (`json.dumps` / `json.loads`) is external library code;
a stored blob is modelled as `Option Json`, where `none` stands for stored
text that does not decode as JSON (`json.loads` raising `JSONDecodeError`).
-/

/-- A JSON value as handled by the Python code. Numeric literals are modelled
as integers (no claim depends on float formatting); objects are association
lists in insertion order, mirroring Python `dict` semantics. -/
inductive Json where
  | null : Json
  | bool : Bool → Json
  | num : Int → Json
  | str : String → Json
  | arr : List Json → Json
  | obj : List (String × Json) → Json

/-- Python exception classes that the two modules can raise. -/
inductive PyErr where
  | valueError (msg : String)
  | typeError (msg : String)
  | attributeError (msg : String)
  | integrityError (msg : String)
  | interfaceError (msg : String)
deriving DecidableEq

/-- Python truthiness (`bool(x)`) of a JSON value: `None`, `False`, `0`, `""`,
`[]` and `{}` are falsy, everything else truthy. Used by the
`if not item: continue` guards in both modules. -/
def pyTruthy : Json → Bool
  | .null => false
  | .bool b => b
  | .num n => n ≠ 0
  | .str s => !s.isEmpty
  | .arr xs => !xs.isEmpty
  | .obj kvs => !kvs.isEmpty

/-- Name of the Python type of a JSON value, as it appears in
`AttributeError` messages. -/
def pyTypeName : Json → String
  | .null => "NoneType"
  | .bool _ => "bool"
  | .num _ => "int"
  | .str _ => "str"
  | .arr _ => "list"
  | .obj _ => "dict"

/-- Escape one character for Python `repr` of a string quoted with `q`.
CPython additionally escapes other control characters; the claims never
exercise those. -/
def pyEscChar (q : Char) (c : Char) : String :=
  if c = '\\' then "\\\\"
  else if c = q then "\\" ++ q.toString
  else if c = '\n' then "\\n"
  else if c = '\r' then "\\r"
  else if c = '\t' then "\\t"
  else c.toString

/-- Python `repr` of a string: single-quoted unless the text contains a
single quote and no double quote. -/
def pyReprStr (s : String) : String :=
  let q : Char :=
    if s.toList.contains '\'' && !(s.toList.contains '"') then '"' else '\''
  q.toString ++ String.join (s.toList.map (pyEscChar q)) ++ q.toString

mutual

/-- Python `repr` of a JSON value (used by `str` on containers). -/
def pyRepr : Json → String
  | .null => "None"
  | .bool b => if b then "True" else "False"
  | .num n => toString n
  | .str s => pyReprStr s
  | .arr xs => "[" ++ pyReprList xs ++ "]"
  | .obj kvs => "\x7b" ++ pyReprObj kvs ++ "\x7d"

/-- Comma-separated `repr` of list elements. -/
def pyReprList : List Json → String
  | [] => ""
  | [x] => pyRepr x
  | x :: rest => pyRepr x ++ ", " ++ pyReprList rest

/-- Comma-separated `repr` of dict items. -/
def pyReprObj : List (String × Json) → String
  | [] => ""
  | [(k, v)] => pyReprStr k ++ ": " ++ pyRepr v
  | (k, v) :: rest => pyReprStr k ++ ": " ++ pyRepr v ++ ", " ++ pyReprObj rest

end

/-- Python `str()` coercion of a JSON value: identity on strings, `repr`-like
text otherwise (`str(None) = "None"`, `str(True) = "True"`, ...). -/
def pyStr : Json → String
  | .str s => s
  | j => pyRepr j

/-- Characters removed by Python `str.strip()` with no argument (ASCII
whitespace; the further Unicode space characters are not exercised by any
claim). -/
def isPySpace (c : Char) : Bool :=
  c = ' ' || c = '\t' || c = '\n' || c = '\r' || c = '\x0b' || c = '\x0c'

/-- Python `str.strip()`: remove leading and trailing whitespace. -/
def pyStrip (s : String) : String :=
  (List.rdropWhile isPySpace (s.toList.dropWhile isPySpace)).asString

theorem dropWhile_eq_self_of_front {α : Type} (p : α → Bool)
    {A B : List α} (hpre : B <+: A) (hA : A.dropWhile p = A) :
    B.dropWhile p = B := by
  cases B with
  | nil => simp
  | cons b B' =>
      obtain ⟨t, ht⟩ := hpre
      rw [← ht, List.cons_append, List.dropWhile_cons] at hA
      have hb : p b = false := by
        by_contra h
        rw [Bool.not_eq_false] at h
        rw [if_pos h] at hA
        have hlen := congrArg List.length hA
        have hle : (List.dropWhile p (B' ++ t)).length ≤ (B' ++ t).length :=
          (List.dropWhile_suffix p).length_le
        rw [List.length_cons] at hlen
        omega
      simp [List.dropWhile_cons, hb]

theorem pyStrip_idem (s : String) : pyStrip (pyStrip s) = pyStrip s := by
  unfold pyStrip
  have h1 : ((List.rdropWhile isPySpace (s.toList.dropWhile isPySpace)).asString).toList
      = List.rdropWhile isPySpace (s.toList.dropWhile isPySpace) := rfl
  rw [h1]
  have hpre := List.rdropWhile_prefix isPySpace (s.toList.dropWhile isPySpace)
  rw [dropWhile_eq_self_of_front isPySpace hpre
    (List.dropWhile_idempotent isPySpace s.toList)]
  rw [List.rdropWhile_idempotent]

/-- A normalized subject record: the three text columns of a slot row. -/
structure SubjectRecord where
  subject : String
  current : String
  target : String
deriving DecidableEq

/-- Python `str(item.get(key, ""))` on a dict: coerce the looked-up value to a
string, with the empty string as default for a missing key. -/
def getStr (kvs : List (String × Json)) (key : String) : String :=
  match kvs.lookup key with
  | some v => pyStr v
  | none => ""

/-- Row built by `Database.py._save_subjects` from a payload dict: plain
`str` coercion of the three fields, with no stripping. -/
def rowOfApp (kvs : List (String × Json)) : SubjectRecord :=
  ⟨getStr kvs "subject", getStr kvs "current", getStr kvs "target"⟩

/-- Row built by `database.py` (`_normalize_subject_payload` and the
re-normalisation inside `load_subjects_snapshot`): `str(...).strip()` on each
of the three fields. -/
def normRowOf (kvs : List (String × Json)) : SubjectRecord :=
  ⟨pyStrip (getStr kvs "subject"), pyStrip (getStr kvs "current"),
    pyStrip (getStr kvs "target")⟩

/-- Insert-or-overwrite into an association list: Python `dict` assignment
`d[k] = v` (an existing key keeps its position) and equally the sqlite
`INSERT ... ON CONFLICT(name) DO UPDATE` upsert keyed by primary key. -/
def dictInsert {α : Type} : List (String × α) → String → α → List (String × α)
  | [], k, v => [(k, v)]
  | (k', v') :: rest, k, v =>
      if k' = k then (k, v) :: rest else (k', v') :: dictInsert rest k v

theorem lookup_dictInsert {α : Type} (l : List (String × α)) (k : String)
    (v : α) : (dictInsert l k v).lookup k = some v := by
  induction l with
  | nil => simp [dictInsert, List.lookup]
  | cons p rest ih =>
      obtain ⟨k', v'⟩ := p
      by_cases h : k' = k
      · subst h; simp [dictInsert, List.lookup]
      · have hbeq : (k == k') = false := beq_eq_false_iff_ne.mpr (Ne.symm h)
        simp [dictInsert, h, List.lookup, hbeq, ih]

/-- Fixed number of subject slots (`SLOT_COUNT = 5` in both modules). -/
def SLOT_COUNT : Nat := 5

/-- JSON object serialised for one normalized record, and equally the JSON
produced for one slot row by the HTTP layer: the dict literal with keys
`subject`, `current`, `target` in that order. -/
def encodeRow (r : SubjectRecord) : Json :=
  .obj [("subject", .str r.subject), ("current", .str r.current),
    ("target", .str r.target)]

/-- Events on a sqlite connection, used to model connection scoping. -/
inductive ConnEvent where
  | acquire
  | commit
  | rollback
  | close
deriving DecidableEq

/-- Outcome of running one store operation against a connection scope:
the re-raised result, the committed store afterwards, and the trace of
connection events. -/
structure TracedResult (σ : Type) where
  result : Except PyErr Unit
  store : σ
  trace : List ConnEvent

namespace DatabaseLib

/-!
Model of `database.py`. The `subject_entries` table is an association list
from `name` to the stored value; the stored value is `Option Json` (`none`
models stored text that `json.loads` rejects). The `updated_at` column is
not modelled: no claim observes it.
-/

/-- A stored `value` cell: `some j` when the text decodes to the JSON value
`j`, `none` when `json.loads` would raise `JSONDecodeError` on it. -/
abbrev Blob := Option Json

/-- The `subject_entries` table, keyed by `name` (primary key). -/
abbrev Entries := List (String × Blob)

/-- Process state of the `database.py` module: the module-level `subjects`
in-memory mirror together with the persistent table. -/
structure KVState where
  mirror : List (String × SubjectRecord)
  entries : Entries

/-- The scoped `_get_connection` context manager of `database.py`: yield the
connection, commit on success, roll back and re-raise on failure, always
close. Rollback restoring the pre-transaction store embeds the storage
engine's transaction semantics. -/
def withConnLib {σ : Type} (body : Except PyErr σ) (st : σ) :
    TracedResult σ :=
  match body with
  | .ok st2 => ⟨.ok (), st2, [.acquire, .commit, .close]⟩
  | .error e => ⟨.error e, st, [.acquire, .rollback, .close]⟩

/-- `database.py.save_subject`: reject an empty name, otherwise upsert the
row keyed by `name`. -/
def save_subject (name : String) (value : Blob) (entries : Entries) :
    Except PyErr Entries :=
  if name = "" then .error (.valueError "name must be a non-empty string.")
  else .ok (dictInsert entries name value)

/-- Ordering of table rows by `name`, as produced by `ORDER BY name`. -/
def entryLe (a b : String × Blob) : Prop := a.1 ≤ b.1

instance : DecidableRel entryLe := fun a b =>
  inferInstanceAs (Decidable (a.1 ≤ b.1))

instance : IsTotal (String × Blob) entryLe :=
  ⟨fun a b => le_total a.1 b.1⟩

instance : IsTrans (String × Blob) entryLe :=
  ⟨fun _ _ _ h1 h2 => le_trans h1 h2⟩

/-- `database.py.load_subjects`: read every row ordered by name and return
the resulting mapping (names are unique, being the primary key). -/
def load_subjects (entries : Entries) : Entries :=
  List.insertionSort entryLe entries

/-- Loop body of `_normalize_subject_payload`: walk the payload with its
index, skip falsy elements, reject present non-dict elements, and record
`str(index) ↦` the stripped three-field record in order. -/
def normalizeGo : Nat → List Json →
    Except PyErr (List (String × SubjectRecord))
  | _, [] => .ok []
  | i, x :: rest =>
      if pyTruthy x then
        match x with
        | .obj kvs =>
            match normalizeGo (i + 1) rest with
            | .ok m => .ok ((Nat.repr i, normRowOf kvs) :: m)
            | .error e => .error e
        | _ => .error (.typeError
            ("subject_list[" ++ Nat.repr i ++ "] must be a dict or null."))
      else normalizeGo (i + 1) rest

/-- `database.py._normalize_subject_payload`: type-check the payload, check
its length, then normalize slot by slot into the canonical mapping. -/
def normalize_subject_payload (j : Json) :
    Except PyErr (List (String × SubjectRecord)) :=
  match j with
  | .arr l =>
      if l.length = SLOT_COUNT then normalizeGo 0 l
      else .error (.valueError ("Expected " ++ Nat.repr SLOT_COUNT
        ++ " slots, got " ++ Nat.repr l.length ++ "."))
  | _ => .error (.typeError "subject_list must be a list.")

/-- JSON blob written by `json.dumps` for the canonical mapping. -/
def encodeMap (m : List (String × SubjectRecord)) : Json :=
  .obj (m.map (fun p => (p.1, encodeRow p.2)))

/-- `database.py.save_subjects_snapshot`: normalize the payload, assign the
module-level mirror, and upsert the serialised mapping under the reserved
key "subjects". On a normalization error nothing is assigned or written.
(`save_subject` cannot fail here: the reserved key is non-empty.) -/
def save_subjects_snapshot (j : Json) (st : KVState) :
    Except PyErr KVState :=
  match normalize_subject_payload j with
  | .error e => .error e
  | .ok m =>
      match save_subject "subjects" (some (encodeMap m)) st.entries with
      | .error e => .error e
      | .ok entries2 => .ok { mirror := m, entries := entries2 }

/-- Recovery loop of `load_subjects_snapshot`: keep only dict values of the
decoded object, re-strip their three fields, and build the mapping with
dict-assignment semantics (`str(key)` is the identity on the string keys). -/
def recoverEntries : List (String × Json) → List (String × SubjectRecord) →
    List (String × SubjectRecord)
  | [], acc => acc
  | (k, v) :: rest, acc =>
      match v with
      | .obj kvs => recoverEntries rest (dictInsert acc k (normRowOf kvs))
      | _ => recoverEntries rest acc

/-- `database.py.load_subjects_snapshot`: fetch the reserved row, tolerate a
missing row, an empty or undecodable blob, or a non-object decode by
substituting the empty mapping, rebuild the mirror, and return the
`SLOT_COUNT`-length sequence with holes at indices absent from the mapping. -/
def load_subjects_snapshot (st : KVState) :
    List (Option SubjectRecord) × KVState :=
  let recovered : List (String × SubjectRecord) :=
    match st.entries.lookup "subjects" with
    | none => []
    | some none => []
    | some (some (.obj kvs)) => recoverEntries kvs []
    | some (some _) => []
  ((List.range SLOT_COUNT).map (fun i => recovered.lookup (Nat.repr i)),
    { mirror := recovered, entries := st.entries })

end DatabaseLib

namespace DatabaseApp

/-!
Model of `Database.py`. The `subject_slots` table is an association list
from slot index to its three text columns; slots written by the module are
the payload indices `0 ≤ slot < SLOT_COUNT` (the table's INTEGER key is
modelled as `Nat`: nothing in the module writes a negative slot). The
`goals` table is its single `id = 1` row. `updated_at` columns are not
modelled: no claim observes them.
-/

/-- The `subject_slots` table. -/
abbrev SlotStore := List (Nat × SubjectRecord)

/-- The `goals` table: `some g` when the `id = 1` row holds text `g`. -/
abbrev GoalState := Option String

/-- The connection scope used throughout `Database.py`: `_get_connection`
returns a bare `sqlite3.connect(...)` used as `with _get_connection() as
connection:`. The sqlite3 connection context manager commits on success and
rolls back on failure, but does not close the connection, and the module
never closes it. -/
def withConnApp {σ : Type} (body : Except PyErr σ) (st : σ) :
    TracedResult σ :=
  match body with
  | .ok st2 => ⟨.ok (), st2, [.acquire, .commit]⟩
  | .error e => ⟨.error e, st, [.acquire, .rollback]⟩

/-- Loop body of `_save_subjects`: skip falsy elements; a present dict
becomes the row `(slot, str-coerced fields)` with no stripping; `.get` on a
present non-dict raises `AttributeError`. -/
def saveGo : Nat → List Json → Except PyErr SlotStore
  | _, [] => .ok []
  | i, x :: rest =>
      if pyTruthy x then
        match x with
        | .obj kvs =>
            match saveGo (i + 1) rest with
            | .ok rows => .ok ((i, rowOfApp kvs) :: rows)
            | .error e => .error e
        | _ => .error (.attributeError
            ("'" ++ pyTypeName x ++ "' object has no attribute 'get'"))
      else saveGo (i + 1) rest

/-- Table contents produced by `Database.py._save_subjects`: a delete-all
followed by one insert per truthy element, so the resulting table does not
depend on the previous contents. Raises `ValueError` on a wrong length. -/
def save_subjects_rows (payload : List Json) : Except PyErr SlotStore :=
  if payload.length ≠ SLOT_COUNT then
    .error (.valueError ("Expected " ++ Nat.repr SLOT_COUNT
      ++ " slots, got " ++ Nat.repr payload.length ++ "."))
  else saveGo 0 payload

/-- `Database.py._save_subjects` run against the store, with the connection
trace. `init_db()` first opens a schema-creation connection (committed, not
closed); the length check fires before the table transaction; the
delete-then-insert runs inside the connection scope, so a failure rolls the
table back unchanged. -/
def save_subjects_traced (payload : List Json) (st : SlotStore) :
    TracedResult SlotStore :=
  let initTrace : List ConnEvent := [.acquire, .commit]
  if payload.length ≠ SLOT_COUNT then
    ⟨.error (.valueError ("Expected " ++ Nat.repr SLOT_COUNT
      ++ " slots, got " ++ Nat.repr payload.length ++ ".")), st, initTrace⟩
  else
    let r := withConnApp (saveGo 0 payload) st
    ⟨r.result, r.store, initTrace ++ r.trace⟩

/-- `Database.py._load_subjects`: start from `SLOT_COUNT` nulls and place
each row whose slot is in range at its index (slots are the unique primary
key, so row order is immaterial). -/
def load_subjects (st : SlotStore) : List (Option SubjectRecord) :=
  st.foldl
    (fun acc p => if p.1 < SLOT_COUNT then acc.set p.1 (some p.2) else acc)
    (List.replicate SLOT_COUNT none)

/-- Text stored by sqlite for a bound Python value in a TEXT NOT NULL
column: strings are stored as-is, numbers and booleans (ints in Python) are
converted to their text form by TEXT affinity, `None` violates the NOT NULL
constraint, and lists and dicts are unsupported parameter types. -/
def sqliteBindText : Json → Except PyErr String
  | .str s => .ok s
  | .num n => .ok (toString n)
  | .bool b => .ok (if b then "1" else "0")
  | .null => .error (.integrityError "NOT NULL constraint failed: goals.goal")
  | .arr _ => .error (.interfaceError
      "Error binding parameter 1: type 'list' is not supported")
  | .obj _ => .error (.interfaceError
      "Error binding parameter 1: type 'dict' is not supported")

/-- `Database.py.save_goal`: upsert the singleton `id = 1` row with the
bound value. A binding or constraint failure raises and, through the
connection scope, leaves the row unchanged. -/
def save_goal (v : Json) (_g : GoalState) : Except PyErr GoalState :=
  match sqliteBindText v with
  | .ok t => .ok (some t)
  | .error e => .error e

/-- `Database.py.load_goal`: the stored text, or the empty string when the
singleton row is absent. -/
def load_goal (g : GoalState) : String :=
  match g with
  | some t => t
  | none => ""

/-- An HTTP response: status code and JSON body. An uncaught Python
exception is rendered by Flask as status 500 (its HTML body is modelled as
`Json.null`). -/
structure Resp where
  status : Nat
  body : Json

/-- JSON rendered for one slot of the loaded sequence. -/
def optRowToJson : Option SubjectRecord → Json
  | none => .null
  | some r => encodeRow r

/-- `GET /api/subjects`: jsonify the loaded slot sequence. -/
def get_subjects (st : SlotStore) : Resp :=
  ⟨200, .arr ((load_subjects st).map optRowToJson)⟩

/-- `POST /api/subjects`: reject a non-list payload with 400; run the write
path, turning its `ValueError` into a 400 error body; any other exception
is uncaught (500). An unparseable request body gives `payload = None`
(`get_json(silent=True)`), covered by the non-list case. -/
def set_subjects (payload : Json) (st : SlotStore) : Resp × SlotStore :=
  match payload with
  | .arr l =>
      match save_subjects_rows l with
      | .ok rows => (⟨200, .obj [("status", .str "ok")]⟩, rows)
      | .error (.valueError m) => (⟨400, .obj [("error", .str m)]⟩, st)
      | .error _ => (⟨500, .null⟩, st)
  | _ => (⟨400, .obj [("error", .str "Payload must be a list.")]⟩, st)

/-- `GET /api/goal`. -/
def get_goal (g : GoalState) : Resp :=
  ⟨200, .obj [("goal", .str (load_goal g))]⟩

/-- `POST /api/goal`: 400 unless the payload is a dict containing the
"goal" key; otherwise the value is passed unvalidated to `save_goal`, whose
failure (null or unsupported value) is uncaught (500). -/
def set_goal (payload : Json) (g : GoalState) : Resp × GoalState :=
  match payload with
  | .obj kvs =>
      match kvs.lookup "goal" with
      | some v =>
          match save_goal v g with
          | .ok g2 => (⟨200, .obj [("status", .str "ok")]⟩, g2)
          | .error _ => (⟨500, .null⟩, g)
      | none =>
          (⟨400, .obj [("error", .str "Payload must be a dict with 'goal' key.")]⟩, g)
  | _ => (⟨400, .obj [("error", .str "Payload must be a dict with 'goal' key.")]⟩, g)

end DatabaseApp

/-!
Helper layer for the claims: per-element characterisation of what one payload
slot becomes after a write-then-read round trip on each path.
-/

/-- Shape hypothesis of the snapshot claims: a payload element is either null
or an object. -/
def NullOrObj (x : Json) : Prop := x = Json.null ∨ ∃ kvs, x = Json.obj kvs

/-- Strip the three fields of a record (what `database.py`'s re-normalisation
does to an already-coerced record). -/
def stripRecord (r : SubjectRecord) : SubjectRecord :=
  ⟨pyStrip r.subject, pyStrip r.current, pyStrip r.target⟩

/-- What one null-or-object payload element becomes at its index after
`Database.py`'s write-then-read: a falsy element (null or the empty dict) is
a hole, a non-empty dict becomes its `str`-coerced row, untrimmed. -/
def normElemApp : Json → Option SubjectRecord
  | .obj kvs => if kvs.isEmpty then none else some (rowOfApp kvs)
  | _ => none

/-- What one null-or-object payload element becomes at its index after
`database.py`'s write-then-read: as `normElemApp`, but with each field
stripped of surrounding whitespace. -/
def normElemLib : Json → Option SubjectRecord
  | .obj kvs => if kvs.isEmpty then none else some (normRowOf kvs)
  | _ => none

theorem stripRecord_idem (r : SubjectRecord) :
    stripRecord (stripRecord r) = stripRecord r := by
  simp [stripRecord, pyStrip_idem]

theorem normElemLib_eq_strip (x : Json) :
    normElemLib x = (normElemApp x).map stripRecord := by
  cases x <;> simp [normElemApp, normElemLib]
  split <;> simp [stripRecord, normRowOf, rowOfApp]

theorem normElemApp_cases (x : Json) (hx : NullOrObj x) :
    normElemApp x = none ∨ ∃ r, normElemApp x = some r := by
  rcases hx with rfl | ⟨kvs, rfl⟩
  · left; rfl
  · by_cases h : kvs.isEmpty
    · left; simp [normElemApp, h]
    · right; exact ⟨rowOfApp kvs, by simp [normElemApp, h]⟩

theorem normElemLib_cases (x : Json) (hx : NullOrObj x) :
    normElemLib x = none ∨ ∃ r, normElemLib x = some r ∧ stripRecord r = r := by
  rcases normElemApp_cases x hx with h | ⟨r, h⟩
  · left; rw [normElemLib_eq_strip, h]; rfl
  · right
    exact ⟨stripRecord r, by rw [normElemLib_eq_strip, h]; rfl, stripRecord_idem r⟩

/-- Rows that `Database.py._save_subjects` inserts for a null-or-object
payload, walking from slot index `i`. -/
def expRowsApp : Nat → List Json → DatabaseApp.SlotStore
  | _, [] => []
  | i, x :: rest =>
      match normElemApp x with
      | some r => (i, r) :: expRowsApp (i + 1) rest
      | none => expRowsApp (i + 1) rest

/-- Canonical mapping that `database.py._normalize_subject_payload` produces
for a null-or-object payload, walking from slot index `i`. -/
def expMapLib : Nat → List Json → List (String × SubjectRecord)
  | _, [] => []
  | i, x :: rest =>
      match normElemLib x with
      | some r => (Nat.repr i, r) :: expMapLib (i + 1) rest
      | none => expMapLib (i + 1) rest

theorem saveGo_eq (l : List Json) (i : Nat) (hs : ∀ x ∈ l, NullOrObj x) :
    DatabaseApp.saveGo i l = .ok (expRowsApp i l) := by
  induction l generalizing i with
  | nil => rfl
  | cons x rest ih =>
      have hx := hs x (List.mem_cons_self x rest)
      have hrest : ∀ y ∈ rest, NullOrObj y :=
        fun y hy => hs y (List.mem_cons_of_mem x hy)
      rcases hx with rfl | ⟨kvs, rfl⟩
      · simp [DatabaseApp.saveGo, expRowsApp, pyTruthy, normElemApp, ih (i + 1) hrest]
      · by_cases h : kvs.isEmpty
        · rw [List.isEmpty_iff] at h
          subst h
          simp [DatabaseApp.saveGo, expRowsApp, pyTruthy, normElemApp, ih (i + 1) hrest]
        · have h2 : kvs.isEmpty = false := by
            rw [List.isEmpty_eq_false_iff_exists_mem]
            rcases kvs with _ | ⟨p, ps⟩
            · simp [List.isEmpty] at h
            · exact ⟨p, List.mem_cons_self p ps⟩
          simp [DatabaseApp.saveGo, expRowsApp, pyTruthy, normElemApp, h2,
            ih (i + 1) hrest]

theorem normalizeGo_eq (l : List Json) (i : Nat)
    (hs : ∀ x ∈ l, NullOrObj x) :
    DatabaseLib.normalizeGo i l = .ok (expMapLib i l) := by
  induction l generalizing i with
  | nil => rfl
  | cons x rest ih =>
      have hx := hs x (List.mem_cons_self x rest)
      have hrest : ∀ y ∈ rest, NullOrObj y :=
        fun y hy => hs y (List.mem_cons_of_mem x hy)
      rcases hx with rfl | ⟨kvs, rfl⟩
      · simp [DatabaseLib.normalizeGo, expMapLib, pyTruthy, normElemLib,
          ih (i + 1) hrest]
      · by_cases h : kvs.isEmpty
        · rw [List.isEmpty_iff] at h
          subst h
          simp [DatabaseLib.normalizeGo, expMapLib, pyTruthy, normElemLib,
            ih (i + 1) hrest]
        · have h2 : kvs.isEmpty = false := by
            rcases kvs with _ | ⟨p, ps⟩
            · simp [List.isEmpty] at h
            · rfl
          simp [DatabaseLib.normalizeGo, expMapLib, pyTruthy, normElemLib, h2,
            ih (i + 1) hrest]

theorem exists_five (l : List Json) (h5 : l.length = SLOT_COUNT) :
    ∃ a b c d e, l = [a, b, c, d, e] :=
  match l, h5 with
  | [a, b, c, d, e], _ => ⟨a, b, c, d, e, rfl⟩

theorem reprNat0 : Nat.repr 0 = "0" := rfl

theorem reprNat1 : Nat.repr 1 = "1" := rfl

theorem reprNat2 : Nat.repr 2 = "2" := rfl

theorem reprNat3 : Nat.repr 3 = "3" := rfl

theorem reprNat4 : Nat.repr 4 = "4" := rfl

theorem rangeSlots : List.range SLOT_COUNT = [0, 1, 2, 3, 4] := rfl

theorem normRowOf_encodeRow (r : SubjectRecord) :
    normRowOf [("subject", Json.str r.subject), ("current", Json.str r.current),
      ("target", Json.str r.target)] = stripRecord r := rfl

theorem save_subjects_rows_eq (l : List Json) (h5 : l.length = SLOT_COUNT)
    (hs : ∀ x ∈ l, NullOrObj x) :
    DatabaseApp.save_subjects_rows l = .ok (expRowsApp 0 l) := by
  simp [DatabaseApp.save_subjects_rows, h5, saveGo_eq l 0 hs]

theorem load_expRows (l : List Json) (h5 : l.length = SLOT_COUNT)
    (hs : ∀ x ∈ l, NullOrObj x) :
    DatabaseApp.load_subjects (expRowsApp 0 l) = l.map normElemApp := by
  obtain ⟨a, b, c, d, e, rfl⟩ := exists_five l h5
  have ha := normElemApp_cases a (hs a (by simp))
  have hb := normElemApp_cases b (hs b (by simp))
  have hc := normElemApp_cases c (hs c (by simp))
  have hd := normElemApp_cases d (hs d (by simp))
  have he := normElemApp_cases e (hs e (by simp))
  rcases ha with ha | ⟨ra, ha⟩ <;> rcases hb with hb | ⟨rb, hb⟩ <;>
    rcases hc with hc | ⟨rc, hc⟩ <;> rcases hd with hd | ⟨rd, hd⟩ <;>
    rcases he with he | ⟨re, he⟩ <;>
    (simp only [expRowsApp, List.map_cons, List.map_nil, ha, hb, hc, hd, he]
     rfl)

theorem save_snapshot_eq (l : List Json) (h5 : l.length = SLOT_COUNT)
    (hs : ∀ x ∈ l, NullOrObj x) (st : DatabaseLib.KVState) :
    DatabaseLib.save_subjects_snapshot (.arr l) st =
      .ok ⟨expMapLib 0 l, dictInsert st.entries "subjects"
        (some (DatabaseLib.encodeMap (expMapLib 0 l)))⟩ := by
  simp [DatabaseLib.save_subjects_snapshot, DatabaseLib.normalize_subject_payload,
    h5, normalizeGo_eq l 0 hs, DatabaseLib.save_subject]

theorem normElemLib_stripped (x : Json) :
    (normElemLib x).map stripRecord = normElemLib x := by
  cases x <;> simp [normElemLib]
  split <;> simp [stripRecord, normRowOf, pyStrip_idem]

theorem expMapLib_stripped (l : List Json) (i : Nat) :
    (expMapLib i l).map (fun p => (p.1, stripRecord p.2)) = expMapLib i l := by
  induction l generalizing i with
  | nil => rfl
  | cons x rest ih =>
      cases h : normElemLib x with
      | none => simp [expMapLib, h, ih (i + 1)]
      | some r =>
          have hst : stripRecord r = r := by
            have h2 := normElemLib_stripped x
            rw [h] at h2
            simpa using h2
          simp [expMapLib, h, hst, ih (i + 1)]

theorem normElemLib_cases2 (x : Json) (hx : NullOrObj x) :
    normElemLib x = none ∨ ∃ r, normElemLib x = some r := by
  rcases normElemLib_cases x hx with h | ⟨r, h, _⟩
  · exact Or.inl h
  · exact Or.inr ⟨r, h⟩

theorem load_core (l : List Json) (h5 : l.length = SLOT_COUNT)
    (hs : ∀ x ∈ l, NullOrObj x) :
    DatabaseLib.recoverEntries
        ((expMapLib 0 l).map (fun p => (p.1, encodeRow p.2))) []
        = (expMapLib 0 l).map (fun p => (p.1, stripRecord p.2))
      ∧ (List.range SLOT_COUNT).map
          (fun i => (expMapLib 0 l).lookup (Nat.repr i)) = l.map normElemLib := by
  obtain ⟨a, b, c, d, e, rfl⟩ := exists_five l h5
  have ha := normElemLib_cases2 a (hs a (by simp))
  have hb := normElemLib_cases2 b (hs b (by simp))
  have hc := normElemLib_cases2 c (hs c (by simp))
  have hd := normElemLib_cases2 d (hs d (by simp))
  have he := normElemLib_cases2 e (hs e (by simp))
  rcases ha with ha | ⟨ra, ha⟩ <;> rcases hb with hb | ⟨rb, hb⟩ <;>
    rcases hc with hc | ⟨rc, hc⟩ <;> rcases hd with hd | ⟨rd, hd⟩ <;>
    rcases he with he | ⟨re, he⟩ <;>
    (constructor
     · simp only [expMapLib, ha, hb, hc, hd, he, reprNat0, reprNat1, reprNat2,
         reprNat3, reprNat4, List.map_cons, List.map_nil]
       try rfl
     · simp only [expMapLib, ha, hb, hc, hd, he, reprNat0, reprNat1, reprNat2,
         reprNat3, reprNat4, rangeSlots, List.map_cons, List.map_nil,
         List.lookup]
       try rfl)

theorem roundLib (l : List Json) (h5 : l.length = SLOT_COUNT)
    (hs : ∀ x ∈ l, NullOrObj x) (st st2 : DatabaseLib.KVState)
    (hsave : DatabaseLib.save_subjects_snapshot (.arr l) st = .ok st2) :
    DatabaseLib.load_subjects_snapshot st2
        = (l.map normElemLib, ⟨expMapLib 0 l, st2.entries⟩)
      ∧ st2.mirror = expMapLib 0 l
      ∧ st2.entries.lookup "subjects"
          = some (some (DatabaseLib.encodeMap (expMapLib 0 l))) := by
  rw [save_snapshot_eq l h5 hs st] at hsave
  have h2 : st2 = ⟨expMapLib 0 l, dictInsert st.entries "subjects"
      (some (DatabaseLib.encodeMap (expMapLib 0 l)))⟩ := by
    cases hsave
    rfl
  subst h2
  refine ⟨?_, rfl, lookup_dictInsert _ _ _⟩
  have hlk := lookup_dictInsert st.entries "subjects"
    (some (DatabaseLib.encodeMap (expMapLib 0 l)))
  have hcore := load_core l h5 hs
  simp only [DatabaseLib.load_subjects_snapshot, DatabaseLib.encodeMap]
  simp only [DatabaseLib.encodeMap] at hlk
  simp only [hlk]
  rw [hcore.1, expMapLib_stripped, hcore.2]

/-- Whether an `Except` result is a success. -/
def isOkB {ε α : Type} : Except ε α → Bool
  | .ok _ => true
  | .error _ => false

/-- Whether a JSON value is an object (`isinstance(value, dict)`). -/
def isObjJson : Json → Bool
  | .obj _ => true
  | _ => false

/-- Whether an `Except` result is a `TypeError`. -/
def isTypeErrorB {α : Type} : Except PyErr α → Bool
  | .error (.typeError _) => true
  | _ => false

/-- Whether an `Except` result is an `AttributeError`. -/
def isAttributeErrorB {α : Type} : Except PyErr α → Bool
  | .error (.attributeError _) => true
  | _ => false

theorem mem_dictInsert {α : Type} (l : List (String × α)) (k : String)
    (v : α) : (k, v) ∈ dictInsert l k v := by
  induction l with
  | nil => simp [dictInsert]
  | cons p rest ih =>
      obtain ⟨k', v'⟩ := p
      by_cases h : k' = k
      · simp [dictInsert, h]
      · simp only [dictInsert, if_neg h, List.mem_cons]
        exact Or.inr ih

/-- Claim C8: `load_goal` returns the empty string before any `save_goal`
call (absent singleton row); after `save_goal x` it returns exactly `x`, and
after a subsequent `save_goal y` it returns `y` — always the latest written
value, with any string (including the empty string) accepted without
validation. -/
theorem claim_C8 :
    DatabaseApp.load_goal (none : DatabaseApp.GoalState) = ""
    ∧ (∀ (x : String) (g : DatabaseApp.GoalState),
        DatabaseApp.save_goal (.str x) g = .ok (some x))
    ∧ (∀ (x y : String) (g g1 g2 : DatabaseApp.GoalState),
        DatabaseApp.save_goal (.str x) g = .ok g1 →
        DatabaseApp.save_goal (.str y) g1 = .ok g2 →
        DatabaseApp.load_goal g1 = x ∧ DatabaseApp.load_goal g2 = y) := by
  refine ⟨rfl, fun x g => rfl, fun x y g g1 g2 h1 h2 => ?_⟩
  simp only [DatabaseApp.save_goal, DatabaseApp.sqliteBindText] at h1 h2
  cases h1
  cases h2
  exact ⟨rfl, rfl⟩

/-- Witness for C8 at the concrete inputs of the spec's example. -/
theorem claim_C8_witness :
    DatabaseApp.save_goal (.str "x") none = .ok (some "x")
    ∧ DatabaseApp.save_goal (.str "y") (some "x") = .ok (some "y")
    ∧ DatabaseApp.load_goal (some "x") = "x"
    ∧ DatabaseApp.load_goal (some "y") = "y" := by
  have h := claim_C8
  have h3 := h.2.2 "x" "y" none (some "x") (some "y") rfl rfl
  exact ⟨h.2.1 "x" none, h.2.1 "y" (some "x"), h3.1, h3.2⟩

/-- Claim C9: `save_subject` rejects the empty name with a validation error;
for a non-empty name it upserts, and `load_subjects` then returns the table
ordered by name, containing that name-to-value pair. -/
theorem claim_C9 :
    (∀ (v : DatabaseLib.Blob) (e : DatabaseLib.Entries),
        DatabaseLib.save_subject "" v e
          = .error (.valueError "name must be a non-empty string."))
    ∧ (∀ (n : String) (v : DatabaseLib.Blob) (e e2 : DatabaseLib.Entries),
        n ≠ "" →
        DatabaseLib.save_subject n v e = .ok e2 →
        (n, v) ∈ DatabaseLib.load_subjects e2
          ∧ List.Sorted DatabaseLib.entryLe (DatabaseLib.load_subjects e2)) := by
  refine ⟨fun v e => rfl, fun n v e e2 hn hsave => ?_⟩
  simp only [DatabaseLib.save_subject, if_neg hn] at hsave
  cases hsave
  constructor
  · rw [DatabaseLib.load_subjects, List.mem_insertionSort]
    exact mem_dictInsert e n v
  · exact List.sorted_insertionSort DatabaseLib.entryLe _

/-- Witness for C9 at the spec's example entry. -/
theorem claim_C9_witness :
    DatabaseLib.save_subject "" (some (Json.str "v")) []
      = .error (.valueError "name must be a non-empty string.")
    ∧ ("k", (some (Json.str "v") : DatabaseLib.Blob))
        ∈ DatabaseLib.load_subjects [("k", some (Json.str "v"))]
    ∧ List.Sorted DatabaseLib.entryLe
        (DatabaseLib.load_subjects [("k", some (Json.str "v"))]) := by
  have h := claim_C9
  have h2 := h.2 "k" (some (Json.str "v")) [] [("k", some (Json.str "v"))]
    (by decide) rfl
  exact ⟨h.1 (some (Json.str "v")) [], h2.1, h2.2⟩

/-- Claim C5: when the value stored under the reserved key "subjects" does
not decode as JSON, or decodes to a non-object, `load_subjects_snapshot`
does not raise: it substitutes the empty mapping (also resetting the
mirror) and returns the all-null `SLOT_COUNT`-length sequence; the result
always has length `SLOT_COUNT`; and the recovery loop filters out
non-object entry values. -/
theorem claim_C5 :
    (∀ st : DatabaseLib.KVState,
        (DatabaseLib.load_subjects_snapshot st).1.length = SLOT_COUNT)
    ∧ (∀ (st : DatabaseLib.KVState) (blob : DatabaseLib.Blob),
        st.entries.lookup "subjects" = some blob →
        (blob = none ∨ ∃ j, blob = some j ∧ isObjJson j = false) →
        DatabaseLib.load_subjects_snapshot st
          = (List.replicate SLOT_COUNT none, ⟨[], st.entries⟩))
    ∧ (∀ (kvs : List (String × Json)) (acc : List (String × SubjectRecord)),
        DatabaseLib.recoverEntries kvs acc
          = DatabaseLib.recoverEntries
              (kvs.filter (fun p => isObjJson p.2)) acc) := by
  refine ⟨fun st => ?_, fun st blob hlk hbad => ?_, fun kvs => ?_⟩
  · simp [DatabaseLib.load_subjects_snapshot]
  · rcases hbad with rfl | ⟨j, rfl, hno⟩
    · simp [DatabaseLib.load_subjects_snapshot, hlk]
      try rfl
    · cases j <;> simp [isObjJson] at hno <;>
        (simp [DatabaseLib.load_subjects_snapshot, hlk]; try rfl)
  · induction kvs with
    | nil => intro acc; rfl
    | cons p rest ih =>
        intro acc
        obtain ⟨k, v⟩ := p
        cases v <;>
          simp [DatabaseLib.recoverEntries, List.filter, isObjJson, ih]

/-- Witness for C5: a store whose "subjects" row holds undecodable text. -/
theorem claim_C5_witness :
    (DatabaseLib.load_subjects_snapshot
        ⟨[], [("subjects", (none : DatabaseLib.Blob))]⟩).1.length = SLOT_COUNT
    ∧ DatabaseLib.load_subjects_snapshot
          ⟨[], [("subjects", (none : DatabaseLib.Blob))]⟩
        = (List.replicate SLOT_COUNT none,
            ⟨[], [("subjects", (none : DatabaseLib.Blob))]⟩)
    ∧ DatabaseLib.recoverEntries [("0", Json.str "junk")] []
        = DatabaseLib.recoverEntries
            ([("0", Json.str "junk")].filter (fun p => isObjJson p.2)) [] := by
  have h := claim_C5
  exact ⟨h.1 ⟨[], [("subjects", none)]⟩,
    h.2.1 ⟨[], [("subjects", none)]⟩ none rfl (Or.inl rfl),
    h.2.2 [("0", Json.str "junk")] []⟩

/-- Counterexample to C7 as stated: `load_subjects_snapshot` also writes the
process-wide mirror (here it resets a non-empty mirror to the empty mapping),
so the mirror is not written only by the normalization/save step. -/
theorem claim_C7_counterexample :
    (DatabaseLib.load_subjects_snapshot
        ⟨[("0", ⟨"a", "b", "c"⟩)], []⟩).2.mirror = []
    ∧ ([] : List (String × SubjectRecord)) ≠ [("0", ⟨"a", "b", "c"⟩)] := by
  exact ⟨rfl, by decide⟩

/-- Claim C7 (amended): after every successful `save_subjects_snapshot` the
in-memory mirror equals exactly the canonical normalized mapping whose
serialisation was persisted under "subjects" (they cannot diverge); however
the mirror is written by `load_subjects_snapshot` as well — the load
overwrites it with the recovered mapping regardless of its previous value —
not only by the normalization/save step. -/
theorem claim_C7 :
    (∀ (j : Json) (st st2 : DatabaseLib.KVState),
        DatabaseLib.save_subjects_snapshot j st = .ok st2 →
        DatabaseLib.normalize_subject_payload j = .ok st2.mirror
          ∧ st2.entries.lookup "subjects"
              = some (some (DatabaseLib.encodeMap st2.mirror)))
    ∧ (∀ (m1 m2 : List (String × SubjectRecord)) (e : DatabaseLib.Entries),
        ((DatabaseLib.load_subjects_snapshot ⟨m1, e⟩).2).mirror
          = ((DatabaseLib.load_subjects_snapshot ⟨m2, e⟩).2).mirror) := by
  constructor
  · intro j st st2 hsave
    cases hn : DatabaseLib.normalize_subject_payload j with
    | error e => simp [DatabaseLib.save_subjects_snapshot, hn] at hsave
    | ok m =>
        simp only [DatabaseLib.save_subjects_snapshot, hn,
          DatabaseLib.save_subject, if_neg (by decide : ¬("subjects" = ""))] at hsave
        cases hsave
        exact ⟨rfl, lookup_dictInsert _ _ _⟩
  · intro m1 m2 e
    simp [DatabaseLib.load_subjects_snapshot]

/-- Witness for C7 at a concrete successful save. -/
theorem claim_C7_witness :
    DatabaseLib.normalize_subject_payload
        (.arr [Json.null, Json.null, Json.null, Json.null, Json.null])
      = .ok (DatabaseLib.KVState.mirror ⟨[], [("subjects", some (Json.obj []))]⟩)
    ∧ (DatabaseLib.KVState.entries
          ⟨[], [("subjects", some (Json.obj []))]⟩).lookup "subjects"
        = some (some (DatabaseLib.encodeMap
            (DatabaseLib.KVState.mirror ⟨[], [("subjects", some (Json.obj []))]⟩)))
    ∧ ((DatabaseLib.load_subjects_snapshot ⟨[("x", ⟨"a", "b", "c"⟩)], []⟩).2).mirror
        = ((DatabaseLib.load_subjects_snapshot ⟨[], []⟩).2).mirror := by
  have h := claim_C7
  have h1 := h.1 (.arr [Json.null, Json.null, Json.null, Json.null, Json.null])
    ⟨[], []⟩ ⟨[], [("subjects", some (Json.obj []))]⟩ rfl
  exact ⟨h1.1, h1.2, h.2 [("x", ⟨"a", "b", "c"⟩)] [] []⟩

/-- Counterexample to C6 as stated: `Database.py`'s store operations never
close the sqlite connection. A failing `_save_subjects` run (a truthy
non-dict element aborts the delete-then-insert) produces the trace
acquire/commit (the `init_db` scope) then acquire/rollback, with no close
event on any exit path. -/
theorem claim_C6_counterexample :
    (DatabaseApp.save_subjects_traced
        [Json.num 1, Json.null, Json.null, Json.null, Json.null] []).trace
      = [ConnEvent.acquire, ConnEvent.commit, ConnEvent.acquire,
          ConnEvent.rollback]
    ∧ ConnEvent.close ∉ (DatabaseApp.save_subjects_traced
        [Json.num 1, Json.null, Json.null, Json.null, Json.null] []).trace := by
  exact ⟨rfl, by decide⟩

/-- Claim C6 (amended): `database.py`'s connection scope acquires, commits on
success, rolls back and re-raises on failure, and closes on every exit path;
`Database.py`'s connection scope commits on success and rolls back on
failure — so on any failure the store is unchanged and no half-applied
delete-then-insert is left committed — but it never closes the connection:
no `Database.py` save emits a close event on any path. -/
theorem claim_C6 :
    (∀ (σ : Type) (body : Except PyErr σ) (st st2 : σ), body = .ok st2 →
        DatabaseLib.withConnLib body st
          = ⟨.ok (), st2, [.acquire, .commit, .close]⟩)
    ∧ (∀ (σ : Type) (body : Except PyErr σ) (st : σ) (e : PyErr),
        body = .error e →
        DatabaseLib.withConnLib body st
          = ⟨.error e, st, [.acquire, .rollback, .close]⟩)
    ∧ (∀ (σ : Type) (body : Except PyErr σ) (st st2 : σ), body = .ok st2 →
        DatabaseApp.withConnApp body st = ⟨.ok (), st2, [.acquire, .commit]⟩)
    ∧ (∀ (σ : Type) (body : Except PyErr σ) (st : σ) (e : PyErr),
        body = .error e →
        DatabaseApp.withConnApp body st = ⟨.error e, st, [.acquire, .rollback]⟩)
    ∧ (∀ (payload : List Json) (st : DatabaseApp.SlotStore) (e : PyErr),
        (DatabaseApp.save_subjects_traced payload st).result = .error e →
        (DatabaseApp.save_subjects_traced payload st).store = st)
    ∧ (∀ (payload : List Json) (st : DatabaseApp.SlotStore),
        ConnEvent.close ∉ (DatabaseApp.save_subjects_traced payload st).trace) := by
  refine ⟨?_, ?_, ?_, ?_, ?_, ?_⟩
  · intro σ body st st2 h; subst h; rfl
  · intro σ body st e h; subst h; rfl
  · intro σ body st st2 h; subst h; rfl
  · intro σ body st e h; subst h; rfl
  · intro payload st e h
    by_cases h5 : payload.length ≠ SLOT_COUNT
    · simp [DatabaseApp.save_subjects_traced, h5]
    · cases hb : DatabaseApp.saveGo 0 payload with
      | ok rows =>
          exfalso
          simp [DatabaseApp.save_subjects_traced, h5,
            DatabaseApp.withConnApp, hb] at h
      | error e2 =>
          simp [DatabaseApp.save_subjects_traced, h5,
            DatabaseApp.withConnApp, hb]
  · intro payload st
    by_cases h5 : payload.length ≠ SLOT_COUNT
    · simp [DatabaseApp.save_subjects_traced, h5]
    · cases hb : DatabaseApp.saveGo 0 payload with
      | ok rows =>
          simp [DatabaseApp.save_subjects_traced, h5,
            DatabaseApp.withConnApp, hb]
      | error e2 =>
          simp [DatabaseApp.save_subjects_traced, h5,
            DatabaseApp.withConnApp, hb]

/-- Witness for C6 at concrete scopes and a concrete failing save. -/
theorem claim_C6_witness :
    DatabaseLib.withConnLib (.ok 3 : Except PyErr Nat) 0
      = ⟨.ok (), 3, [.acquire, .commit, .close]⟩
    ∧ DatabaseLib.withConnLib (.error (.valueError "v") : Except PyErr Nat) 0
      = ⟨.error (.valueError "v"), 0, [.acquire, .rollback, .close]⟩
    ∧ DatabaseApp.withConnApp (.ok 3 : Except PyErr Nat) 0
      = ⟨.ok (), 3, [.acquire, .commit]⟩
    ∧ DatabaseApp.withConnApp (.error (.valueError "v") : Except PyErr Nat) 0
      = ⟨.error (.valueError "v"), 0, [.acquire, .rollback]⟩
    ∧ (DatabaseApp.save_subjects_traced [Json.num 2] [(0, ⟨"a", "b", "c"⟩)]).store
      = [(0, ⟨"a", "b", "c"⟩)]
    ∧ ConnEvent.close
        ∉ (DatabaseApp.save_subjects_traced [Json.num 2] [(0, ⟨"a", "b", "c"⟩)]).trace := by
  have h := claim_C6
  refine ⟨h.1 Nat (.ok 3) 0 3 rfl, h.2.1 Nat (.error (.valueError "v")) 0 _ rfl,
    h.2.2.1 Nat (.ok 3) 0 3 rfl, h.2.2.2.1 Nat (.error (.valueError "v")) 0 _ rfl,
    h.2.2.2.2.1 [Json.num 2] [(0, ⟨"a", "b", "c"⟩)]
      (.valueError "Expected 5 slots, got 1.") rfl,
    h.2.2.2.2.2 [Json.num 2] [(0, ⟨"a", "b", "c"⟩)]⟩

theorem normalizeGo_err (l : List Json) : ∀ i : Nat,
    (∃ x ∈ l, pyTruthy x = true ∧ isObjJson x = false) →
    isTypeErrorB (DatabaseLib.normalizeGo i l) = true := by
  induction l with
  | nil => intro i h; simp at h
  | cons x rest ih =>
      intro i h
      rcases h with ⟨y, hy, hty, hoy⟩
      rcases List.mem_cons.mp hy with rfl | hyr
      · cases y with
        | obj kvs => simp [isObjJson] at hoy
        | null => simp [pyTruthy] at hty
        | bool b => simp [DatabaseLib.normalizeGo, hty, isTypeErrorB]
        | num n => simp [DatabaseLib.normalizeGo, hty, isTypeErrorB]
        | str s => simp [DatabaseLib.normalizeGo, hty, isTypeErrorB]
        | arr xs => simp [DatabaseLib.normalizeGo, hty, isTypeErrorB]
      · by_cases htx : pyTruthy x = true
        · cases x with
          | obj kvs =>
              have hrest := ih (i + 1) ⟨y, hyr, hty, hoy⟩
              cases hr : DatabaseLib.normalizeGo (i + 1) rest with
              | ok m => rw [hr] at hrest; simp [isTypeErrorB] at hrest
              | error e =>
                  rw [hr] at hrest
                  simpa [DatabaseLib.normalizeGo, htx, hr] using hrest
          | null => simp [pyTruthy] at htx
          | bool b => simp [DatabaseLib.normalizeGo, htx, isTypeErrorB]
          | num n => simp [DatabaseLib.normalizeGo, htx, isTypeErrorB]
          | str s => simp [DatabaseLib.normalizeGo, htx, isTypeErrorB]
          | arr xs => simp [DatabaseLib.normalizeGo, htx, isTypeErrorB]
        · rw [Bool.not_eq_true] at htx
          simpa [DatabaseLib.normalizeGo, htx]
            using ih (i + 1) ⟨y, hyr, hty, hoy⟩

theorem saveGo_err (l : List Json) : ∀ i : Nat,
    (∃ x ∈ l, pyTruthy x = true ∧ isObjJson x = false) →
    isAttributeErrorB (DatabaseApp.saveGo i l) = true := by
  induction l with
  | nil => intro i h; simp at h
  | cons x rest ih =>
      intro i h
      rcases h with ⟨y, hy, hty, hoy⟩
      rcases List.mem_cons.mp hy with rfl | hyr
      · cases y with
        | obj kvs => simp [isObjJson] at hoy
        | null => simp [pyTruthy] at hty
        | bool b => simp [DatabaseApp.saveGo, hty, isAttributeErrorB]
        | num n => simp [DatabaseApp.saveGo, hty, isAttributeErrorB]
        | str s => simp [DatabaseApp.saveGo, hty, isAttributeErrorB]
        | arr xs => simp [DatabaseApp.saveGo, hty, isAttributeErrorB]
      · by_cases htx : pyTruthy x = true
        · cases x with
          | obj kvs =>
              have hrest := ih (i + 1) ⟨y, hyr, hty, hoy⟩
              cases hr : DatabaseApp.saveGo (i + 1) rest with
              | ok m => rw [hr] at hrest; simp [isAttributeErrorB] at hrest
              | error e =>
                  rw [hr] at hrest
                  simpa [DatabaseApp.saveGo, htx, hr] using hrest
          | null => simp [pyTruthy] at htx
          | bool b => simp [DatabaseApp.saveGo, htx, isAttributeErrorB]
          | num n => simp [DatabaseApp.saveGo, htx, isAttributeErrorB]
          | str s => simp [DatabaseApp.saveGo, htx, isAttributeErrorB]
          | arr xs => simp [DatabaseApp.saveGo, htx, isAttributeErrorB]
        · rw [Bool.not_eq_true] at htx
          simpa [DatabaseApp.saveGo, htx]
            using ih (i + 1) ⟨y, hyr, hty, hoy⟩

/-- Counterexample to C3 as stated: a falsy non-null non-object element
(here the number 0) is silently treated as an absent slot by both write
paths — no shape error is raised. -/
theorem claim_C3_counterexample :
    DatabaseLib.normalize_subject_payload
        (.arr [Json.num 0, Json.null, Json.null, Json.null, Json.null]) = .ok []
    ∧ DatabaseApp.save_subjects_rows
        [Json.num 0, Json.null, Json.null, Json.null, Json.null] = .ok [] :=
  ⟨rfl, rfl⟩

/-- Claim C3 (amended): both write paths raise a `ValueError` for every
input whose length is not 5; `database.py` raises a `TypeError` for a
non-sequence input; and a 5-element input containing a truthy non-null
non-object element makes `database.py` raise a `TypeError` and `Database.py`
an (uncaught) `AttributeError`; a falsy non-object element, however, is
treated as an absent slot by both paths rather than raising. -/
theorem claim_C3 :
    (∀ l : List Json, l.length ≠ SLOT_COUNT →
        DatabaseLib.normalize_subject_payload (.arr l)
            = .error (.valueError ("Expected " ++ Nat.repr SLOT_COUNT
                ++ " slots, got " ++ Nat.repr l.length ++ "."))
          ∧ DatabaseApp.save_subjects_rows l
            = .error (.valueError ("Expected " ++ Nat.repr SLOT_COUNT
                ++ " slots, got " ++ Nat.repr l.length ++ ".")))
    ∧ (∀ j : Json, (∀ xs, j ≠ .arr xs) →
        DatabaseLib.normalize_subject_payload j
          = .error (.typeError "subject_list must be a list."))
    ∧ (∀ l : List Json, l.length = SLOT_COUNT →
        (∃ x ∈ l, pyTruthy x = true ∧ isObjJson x = false) →
        isTypeErrorB (DatabaseLib.normalize_subject_payload (.arr l)) = true
          ∧ isAttributeErrorB (DatabaseApp.save_subjects_rows l) = true)
    ∧ (∀ (i : Nat) (x : Json) (rest : List Json), pyTruthy x = false →
        DatabaseLib.normalizeGo i (x :: rest)
            = DatabaseLib.normalizeGo (i + 1) rest
          ∧ DatabaseApp.saveGo i (x :: rest)
            = DatabaseApp.saveGo (i + 1) rest) := by
  refine ⟨fun l h => ?_, fun j h => ?_, fun l h5 hbad => ?_, fun i x rest h => ?_⟩
  · constructor
    · simp [DatabaseLib.normalize_subject_payload, h]
    · simp [DatabaseApp.save_subjects_rows, h]
  · cases j with
    | arr xs => exact absurd rfl (h xs)
    | null => rfl
    | bool b => rfl
    | num n => rfl
    | str s => rfl
    | obj kvs => rfl
  · constructor
    · simpa [DatabaseLib.normalize_subject_payload, h5]
        using normalizeGo_err l 0 hbad
    · simpa [DatabaseApp.save_subjects_rows, h5] using saveGo_err l 0 hbad
  · exact ⟨by simp [DatabaseLib.normalizeGo, h],
      by simp [DatabaseApp.saveGo, h]⟩

/-- Witness for C3 at concrete shapes: a short list, a non-list payload, a
5-list holding a truthy number, and a falsy boolean element. -/
theorem claim_C3_witness :
    DatabaseLib.normalize_subject_payload (.arr [])
        = .error (.valueError "Expected 5 slots, got 0.")
    ∧ DatabaseApp.save_subjects_rows []
        = .error (.valueError "Expected 5 slots, got 0.")
    ∧ DatabaseLib.normalize_subject_payload Json.null
        = .error (.typeError "subject_list must be a list.")
    ∧ isTypeErrorB (DatabaseLib.normalize_subject_payload
        (.arr [Json.num 7, Json.null, Json.null, Json.null, Json.null])) = true
    ∧ isAttributeErrorB (DatabaseApp.save_subjects_rows
        [Json.num 7, Json.null, Json.null, Json.null, Json.null]) = true
    ∧ DatabaseLib.normalizeGo 0 [Json.bool false]
        = DatabaseLib.normalizeGo 1 []
    ∧ DatabaseApp.saveGo 0 [Json.bool false] = DatabaseApp.saveGo 1 [] := by
  have h := claim_C3
  have h1 := h.1 [] (by decide)
  have h3 := h.2.2.1 [Json.num 7, Json.null, Json.null, Json.null, Json.null]
    (by decide) ⟨Json.num 7, by simp, rfl, rfl⟩
  have h4 := h.2.2.2 0 (Json.bool false) [] rfl
  exact ⟨h1.1, h1.2, h.2.1 Json.null (fun xs hx => Json.noConfusion hx),
    h3.1, h3.2, h4.1, h4.2⟩

/-- Counterexample to C1 as stated, at the input
`[{"subject": " x "}, {}, null, null, null]`: on the `Database.py` path the
stored field keeps its surrounding whitespace (no trimming), and on both
paths the present empty object round-trips as null rather than as a record
of three empty strings. -/
theorem claim_C1_counterexample :
    DatabaseApp.save_subjects_rows
        [Json.obj [("subject", Json.str " x ")], Json.obj [], Json.null,
          Json.null, Json.null] = .ok [(0, ⟨" x ", "", ""⟩)]
    ∧ DatabaseApp.load_subjects [(0, ⟨" x ", "", ""⟩)]
        = [some ⟨" x ", "", ""⟩, none, none, none, none]
    ∧ ([some ⟨" x ", "", ""⟩, none, none, none, none]
          : List (Option SubjectRecord))
        ≠ [some ⟨"x", "", ""⟩, some ⟨"", "", ""⟩, none, none, none]
    ∧ DatabaseLib.save_subjects_snapshot
        (.arr [Json.obj [("subject", Json.str " x ")], Json.obj [], Json.null,
          Json.null, Json.null]) ⟨[], []⟩
        = .ok ⟨[("0", ⟨"x", "", ""⟩)],
            [("subjects", some (Json.obj [("0", Json.obj
              [("subject", Json.str "x"), ("current", Json.str ""),
                ("target", Json.str "")])]))]⟩
    ∧ (DatabaseLib.load_subjects_snapshot ⟨[("0", ⟨"x", "", ""⟩)],
        [("subjects", some (Json.obj [("0", Json.obj
          [("subject", Json.str "x"), ("current", Json.str ""),
            ("target", Json.str "")])]))]⟩).1
        = [some ⟨"x", "", ""⟩, none, none, none, none]
    ∧ ([some ⟨"x", "", ""⟩, none, none, none, none]
          : List (Option SubjectRecord))
        ≠ [some ⟨"x", "", ""⟩, some ⟨"", "", ""⟩, none, none, none] := by
  exact ⟨rfl, rfl, by decide, rfl, rfl, by decide⟩

/-- Claim C1 (amended): for every 5-element list of null-or-object elements,
write-then-read succeeds on both paths and yields the 5-element sequence in
which each null or empty-object element is null, and each non-empty object
becomes the record of its three fields coerced to strings (missing field →
empty string) — with the fields additionally trimmed of surrounding
whitespace on the `database.py` path, while the `Database.py` path keeps
them untrimmed; a present empty object round-trips as null, not as a record
of three empty strings. -/
theorem claim_C1 (l : List Json) (h5 : l.length = SLOT_COUNT)
    (hs : ∀ x ∈ l, NullOrObj x) :
    isOkB (DatabaseApp.save_subjects_rows l) = true
    ∧ (∀ rows, DatabaseApp.save_subjects_rows l = .ok rows →
        DatabaseApp.load_subjects rows = l.map normElemApp)
    ∧ (∀ st : DatabaseLib.KVState,
        isOkB (DatabaseLib.save_subjects_snapshot (.arr l) st) = true)
    ∧ (∀ st st2 : DatabaseLib.KVState,
        DatabaseLib.save_subjects_snapshot (.arr l) st = .ok st2 →
        (DatabaseLib.load_subjects_snapshot st2).1 = l.map normElemLib) := by
  refine ⟨?_, ?_, ?_, ?_⟩
  · rw [save_subjects_rows_eq l h5 hs]; rfl
  · intro rows hrows
    rw [save_subjects_rows_eq l h5 hs] at hrows
    cases hrows
    exact load_expRows l h5 hs
  · intro st
    rw [save_snapshot_eq l h5 hs st]
    rfl
  · intro st st2 hsave
    rw [(roundLib l h5 hs st st2 hsave).1]

/-- Witness for C1 at a concrete 5-element payload mixing a whitespace
field, nulls and an empty object. -/
theorem claim_C1_witness :
    isOkB (DatabaseApp.save_subjects_rows
        [Json.obj [("subject", Json.str " a ")], Json.null, Json.null,
          Json.null, Json.obj []]) = true
    ∧ DatabaseApp.load_subjects (expRowsApp 0
        [Json.obj [("subject", Json.str " a ")], Json.null, Json.null,
          Json.null, Json.obj []])
      = [Json.obj [("subject", Json.str " a ")], Json.null, Json.null,
          Json.null, Json.obj []].map normElemApp
    ∧ isOkB (DatabaseLib.save_subjects_snapshot
        (.arr [Json.obj [("subject", Json.str " a ")], Json.null, Json.null,
          Json.null, Json.obj []]) ⟨[], []⟩) = true
    ∧ (DatabaseLib.load_subjects_snapshot
        ⟨expMapLib 0 [Json.obj [("subject", Json.str " a ")], Json.null,
            Json.null, Json.null, Json.obj []],
          dictInsert [] "subjects" (some (DatabaseLib.encodeMap (expMapLib 0
            [Json.obj [("subject", Json.str " a ")], Json.null, Json.null,
              Json.null, Json.obj []])))⟩).1
      = [Json.obj [("subject", Json.str " a ")], Json.null, Json.null,
          Json.null, Json.obj []].map normElemLib := by
  have hshape : ∀ x ∈ [Json.obj [("subject", Json.str " a ")], Json.null,
      Json.null, Json.null, Json.obj []], NullOrObj x := by
    intro x hx
    simp only [List.mem_cons, List.not_mem_nil, or_false] at hx
    rcases hx with rfl | rfl | rfl | rfl | rfl
    · exact Or.inr ⟨_, rfl⟩
    · exact Or.inl rfl
    · exact Or.inl rfl
    · exact Or.inl rfl
    · exact Or.inr ⟨_, rfl⟩
  have h := claim_C1 [Json.obj [("subject", Json.str " a ")], Json.null,
    Json.null, Json.null, Json.obj []] (by decide) hshape
  exact ⟨h.1, h.2.1 _ rfl, h.2.2.1 ⟨[], []⟩, h.2.2.2 ⟨[], []⟩ _ rfl⟩

theorem isSome_getD_map (L : List (Option SubjectRecord)) : ∀ i : Nat,
    ((L.map (Option.map stripRecord)).getD i none).isSome
      = ((L.getD i none)).isSome := by
  induction L with
  | nil => intro i; rfl
  | cons o rest ih =>
      intro i
      cases i with
      | zero => cases o <;> rfl
      | succ n => simpa [List.getD] using ih n

/-- Counterexample to C2 as stated, at `[{"subject": " x "}, null, null,
null, null]` from empty stores: Strategy A returns the field untrimmed
(`" x "`), Strategy B returns it trimmed (`"x"`), so the two write-then-read
results differ. -/
theorem claim_C2_counterexample :
    DatabaseApp.save_subjects_rows
        [Json.obj [("subject", Json.str " x ")], Json.null, Json.null,
          Json.null, Json.null] = .ok [(0, ⟨" x ", "", ""⟩)]
    ∧ DatabaseApp.load_subjects [(0, ⟨" x ", "", ""⟩)]
        = [some ⟨" x ", "", ""⟩, none, none, none, none]
    ∧ DatabaseLib.save_subjects_snapshot
        (.arr [Json.obj [("subject", Json.str " x ")], Json.null, Json.null,
          Json.null, Json.null]) ⟨[], []⟩
        = .ok ⟨[("0", ⟨"x", "", ""⟩)],
            [("subjects", some (Json.obj [("0", Json.obj
              [("subject", Json.str "x"), ("current", Json.str ""),
                ("target", Json.str "")])]))]⟩
    ∧ (DatabaseLib.load_subjects_snapshot ⟨[("0", ⟨"x", "", ""⟩)],
        [("subjects", some (Json.obj [("0", Json.obj
          [("subject", Json.str "x"), ("current", Json.str ""),
            ("target", Json.str "")])]))]⟩).1
        = [some ⟨"x", "", ""⟩, none, none, none, none]
    ∧ ([some ⟨"x", "", ""⟩, none, none, none, none]
          : List (Option SubjectRecord))
        ≠ [some ⟨" x ", "", ""⟩, none, none, none, none] := by
  exact ⟨rfl, rfl, rfl, rfl, by decide⟩

/-- Claim C2 (amended): for every 5-element null-or-object payload accepted
by both write paths, the two strategies' write-then-read results have the
same absent/occupied status at every index, and Strategy B's result equals
Strategy A's with every field trimmed of surrounding whitespace — the two
coincide exactly on payloads whose coerced fields carry no surrounding
whitespace, since `Database.py` does not strip. -/
theorem claim_C2 (l : List Json) (h5 : l.length = SLOT_COUNT)
    (hs : ∀ x ∈ l, NullOrObj x) (st st2 : DatabaseLib.KVState)
    (rows : DatabaseApp.SlotStore)
    (hA : DatabaseApp.save_subjects_rows l = .ok rows)
    (hB : DatabaseLib.save_subjects_snapshot (.arr l) st = .ok st2) :
    (DatabaseLib.load_subjects_snapshot st2).1
        = (DatabaseApp.load_subjects rows).map (Option.map stripRecord)
    ∧ (∀ i : Nat,
        ((DatabaseLib.load_subjects_snapshot st2).1.getD i none).isSome
          = ((DatabaseApp.load_subjects rows).getD i none).isSome) := by
  rw [save_subjects_rows_eq l h5 hs] at hA
  cases hA
  have hloadA := load_expRows l h5 hs
  have hloadB := (roundLib l h5 hs st st2 hB).1
  have hfun : normElemLib = fun x => (normElemApp x).map stripRecord :=
    funext normElemLib_eq_strip
  have hmain : (DatabaseLib.load_subjects_snapshot st2).1
      = (DatabaseApp.load_subjects (expRowsApp 0 l)).map
          (Option.map stripRecord) := by
    rw [hloadB, hloadA, hfun, List.map_map]
    rfl
  refine ⟨hmain, fun i => ?_⟩
  rw [hmain, isSome_getD_map]

/-- Witness for C2 at a concrete payload with a whitespace-padded field. -/
theorem claim_C2_witness :
    (DatabaseLib.load_subjects_snapshot ⟨[("0", ⟨"x", "", ""⟩)],
        [("subjects", some (Json.obj [("0", Json.obj
          [("subject", Json.str "x"), ("current", Json.str ""),
            ("target", Json.str "")])]))]⟩).1
        = (DatabaseApp.load_subjects [(0, ⟨" x ", "", ""⟩)]).map
            (Option.map stripRecord)
    ∧ (((DatabaseLib.load_subjects_snapshot ⟨[("0", ⟨"x", "", ""⟩)],
        [("subjects", some (Json.obj [("0", Json.obj
          [("subject", Json.str "x"), ("current", Json.str ""),
            ("target", Json.str "")])]))]⟩).1).getD 0 none).isSome
        = ((DatabaseApp.load_subjects [(0, ⟨" x ", "", ""⟩)]).getD 0
            none).isSome := by
  have h := claim_C2 [Json.obj [("subject", Json.str " x ")], Json.null,
      Json.null, Json.null, Json.null] (by decide)
    (by
      intro x hx
      simp only [List.mem_cons, List.not_mem_nil, or_false] at hx
      rcases hx with rfl | rfl | rfl | rfl | rfl
      · exact Or.inr ⟨_, rfl⟩
      · exact Or.inl rfl
      · exact Or.inl rfl
      · exact Or.inl rfl
      · exact Or.inl rfl)
    ⟨[], []⟩
    ⟨[("0", ⟨"x", "", ""⟩)],
      [("subjects", some (Json.obj [("0", Json.obj
        [("subject", Json.str "x"), ("current", Json.str ""),
          ("target", Json.str "")])]))]⟩
    [(0, ⟨" x ", "", ""⟩)] rfl rfl
  exact ⟨h.1, h.2 0⟩

/-- Claim C4: `POST /api/subjects` returns 400 with the body
`error: "Payload must be a list."` whenever the parsed payload is not a JSON
array (an unparseable body parses to null and falls under this case); for an
array payload whose write raises a `ValueError` the response is 400 with
that message and the table is unchanged; and for every 5-element array of
nulls and objects the response is `status: "ok"`, the table holds the
written rows, and a subsequent `GET /api/subjects` returns the normalized
sequence that was written. -/
theorem claim_C4 :
    (∀ (p : Json) (st : DatabaseApp.SlotStore), (∀ xs, p ≠ .arr xs) →
        DatabaseApp.set_subjects p st
          = (⟨400, .obj [("error", .str "Payload must be a list.")]⟩, st))
    ∧ (∀ (l : List Json) (st : DatabaseApp.SlotStore) (m : String),
        DatabaseApp.save_subjects_rows l = .error (.valueError m) →
        DatabaseApp.set_subjects (.arr l) st
          = (⟨400, .obj [("error", .str m)]⟩, st))
    ∧ (∀ (l : List Json) (st : DatabaseApp.SlotStore),
        l.length = SLOT_COUNT → (∀ x ∈ l, NullOrObj x) →
        DatabaseApp.set_subjects (.arr l) st
            = (⟨200, .obj [("status", .str "ok")]⟩, expRowsApp 0 l)
          ∧ DatabaseApp.get_subjects (expRowsApp 0 l)
              = ⟨200, .arr ((l.map normElemApp).map DatabaseApp.optRowToJson)⟩) := by
  refine ⟨fun p st h => ?_, fun l st m h => ?_, fun l st h5 hs => ?_⟩
  · cases p with
    | arr xs => exact absurd rfl (h xs)
    | null => rfl
    | bool b => rfl
    | num n => rfl
    | str s => rfl
    | obj kvs => rfl
  · simp [DatabaseApp.set_subjects, h]
  · constructor
    · simp [DatabaseApp.set_subjects, save_subjects_rows_eq l h5 hs]
    · rw [DatabaseApp.get_subjects, load_expRows l h5 hs]

/-- Witness for C4 at a non-array payload, a short array, and a full
5-element array. -/
theorem claim_C4_witness :
    DatabaseApp.set_subjects (Json.num 3) []
        = (⟨400, .obj [("error", .str "Payload must be a list.")]⟩, [])
    ∧ DatabaseApp.set_subjects (.arr []) []
        = (⟨400, .obj [("error", .str "Expected 5 slots, got 0.")]⟩, [])
    ∧ DatabaseApp.set_subjects
        (.arr [Json.null, Json.null, Json.null, Json.null,
          Json.obj [("target", Json.str "t")]]) []
        = (⟨200, .obj [("status", .str "ok")]⟩, expRowsApp 0
            [Json.null, Json.null, Json.null, Json.null,
              Json.obj [("target", Json.str "t")]])
    ∧ DatabaseApp.get_subjects (expRowsApp 0
          [Json.null, Json.null, Json.null, Json.null,
            Json.obj [("target", Json.str "t")]])
        = ⟨200, .arr (([Json.null, Json.null, Json.null, Json.null,
            Json.obj [("target", Json.str "t")]].map normElemApp).map
              DatabaseApp.optRowToJson)⟩ := by
  have h := claim_C4
  have h3 := h.2.2 [Json.null, Json.null, Json.null, Json.null,
      Json.obj [("target", Json.str "t")]] [] (by decide)
    (by
      intro x hx
      simp only [List.mem_cons, List.not_mem_nil, or_false] at hx
      rcases hx with rfl | rfl | rfl | rfl | rfl
      · exact Or.inl rfl
      · exact Or.inl rfl
      · exact Or.inl rfl
      · exact Or.inl rfl
      · exact Or.inr ⟨_, rfl⟩)
  exact ⟨h.1 (Json.num 3) [] (fun xs hx => Json.noConfusion hx),
    h.2.1 [] [] "Expected 5 slots, got 0." rfl, h3.1, h3.2⟩

/-- Counterexample to C10 as stated, at the payload `goal: null`: the
handler passes the null through to `save_goal`, whose insert violates the
`NOT NULL` constraint on `goals.goal`; the exception is uncaught, so the
request fails with status 500 and the body is not `status: "ok"` — the
claim's promised 200 response does not happen, and no value is stored. -/
theorem claim_C10_counterexample :
    (DatabaseApp.set_goal (.obj [("goal", Json.null)]) none).1.status = 500
    ∧ (DatabaseApp.set_goal (.obj [("goal", Json.null)]) none).1.status ≠ 200
    ∧ (DatabaseApp.set_goal (.obj [("goal", Json.null)]) none).2 = none := by
  exact ⟨rfl, by decide, rfl⟩

/-- Claim C10 (amended): `POST /api/goal` responds 400 exactly when the
payload is not a JSON object or lacks the "goal" key, and otherwise passes
the value unvalidated to `save_goal`; a string, number or boolean value is
accepted — the response is `status: "ok"`, the value is stored in its sqlite
text form, and `GET /api/goal` then returns that text — but a null, array or
object value makes `save_goal` raise (NOT NULL violation or unsupported
parameter type), so the request fails with an uncaught 500 error and the
stored goal is unchanged, rather than responding `status: "ok"`. -/
theorem claim_C10 :
    (∀ (p : Json) (g : DatabaseApp.GoalState), (∀ kvs, p ≠ .obj kvs) →
        DatabaseApp.set_goal p g
          = (⟨400, .obj [("error",
              .str "Payload must be a dict with 'goal' key.")]⟩, g))
    ∧ (∀ (kvs : List (String × Json)) (g : DatabaseApp.GoalState),
        kvs.lookup "goal" = none →
        DatabaseApp.set_goal (.obj kvs) g
          = (⟨400, .obj [("error",
              .str "Payload must be a dict with 'goal' key.")]⟩, g))
    ∧ (∀ (kvs : List (String × Json)) (g : DatabaseApp.GoalState)
        (v : Json) (t : String),
        kvs.lookup "goal" = some v →
        DatabaseApp.sqliteBindText v = .ok t →
        DatabaseApp.set_goal (.obj kvs) g
            = (⟨200, .obj [("status", .str "ok")]⟩, some t)
          ∧ DatabaseApp.get_goal (some t)
            = ⟨200, .obj [("goal", .str t)]⟩)
    ∧ (∀ (kvs : List (String × Json)) (g : DatabaseApp.GoalState)
        (v : Json) (e : PyErr),
        kvs.lookup "goal" = some v →
        DatabaseApp.sqliteBindText v = .error e →
        DatabaseApp.set_goal (.obj kvs) g = (⟨500, .null⟩, g)) := by
  refine ⟨fun p g h => ?_, fun kvs g h => ?_,
    fun kvs g v t hlk hbind => ?_, fun kvs g v e hlk hbind => ?_⟩
  · cases p with
    | obj kvs => exact absurd rfl (h kvs)
    | null => rfl
    | bool b => rfl
    | num n => rfl
    | str s => rfl
    | arr xs => rfl
  · simp [DatabaseApp.set_goal, h]
  · constructor
    · simp [DatabaseApp.set_goal, hlk, DatabaseApp.save_goal, hbind]
    · rfl
  · simp [DatabaseApp.set_goal, hlk, DatabaseApp.save_goal, hbind]

/-- Witness for C10 at concrete payloads: a non-object, an object missing
"goal", a boolean goal value, and an array goal value. -/
theorem claim_C10_witness :
    DatabaseApp.set_goal (Json.str "g") none
        = (⟨400, .obj [("error",
            .str "Payload must be a dict with 'goal' key.")]⟩, none)
    ∧ DatabaseApp.set_goal (.obj [("other", Json.num 1)]) (some "old")
        = (⟨400, .obj [("error",
            .str "Payload must be a dict with 'goal' key.")]⟩, some "old")
    ∧ DatabaseApp.set_goal (.obj [("goal", Json.bool true)]) none
        = (⟨200, .obj [("status", .str "ok")]⟩, some "1")
    ∧ DatabaseApp.get_goal (some "1") = ⟨200, .obj [("goal", .str "1")]⟩
    ∧ DatabaseApp.set_goal (.obj [("goal", Json.arr [])]) (some "old")
        = (⟨500, .null⟩, some "old") := by
  have h := claim_C10
  have h3 := h.2.2.1 [("goal", Json.bool true)] none (Json.bool true) "1"
    rfl rfl
  exact ⟨h.1 (Json.str "g") none (fun kvs hx => Json.noConfusion hx),
    h.2.1 [("other", Json.num 1)] (some "old") rfl, h3.1, h3.2,
    h.2.2.2 [("goal", Json.arr [])] (some "old") (Json.arr [])
      (.interfaceError "Error binding parameter 1: type 'list' is not supported")
      rfl rfl⟩
